import Mathlib

/-
Verification development for the Tuteliq MCP server repository.

The embedding below models, faithfully to the TypeScript source:
  * the HTTP session-routing layer (`createHttpHandler` in src/transport.ts,
    appearing at lines 1204-1244 of the concatenated src/src/index.ts),
  * the v2 monolithic tool dispatcher (`server.setRequestHandler(CallToolRequestSchema, ...)`
    at lines 607-1128 of src/src/index.ts),
  * the express `/mcp` route fault barrier (server.ts, src/unnamed/part_000),
  * the startup credential check (src/src/index.ts lines 14-18 and 1154-1158),
  * the `analyze_voice` markdown renderer (src/src/tools/media.ts lines 55-106,
    textually identical to the v2 case at src/src/index.ts lines 803-853).
-/

/- ===================================================================
   HTTP session-routing layer (createHttpHandler, src/transport.ts)

   The handler keeps `transports : Map<string, StreamableHTTPServerTransport>`.
   * POST: builds a fresh transport whose sessionIdGenerator is
     crypto.randomUUID(); when the POSTed body is an initialization request
     the SDK calls onsessioninitialized(id), which inserts id into the map,
     and echoes the id to the client in the mcp-session-id response header.
   * GET: requires a live session id header, else 400.
   * DELETE: requires a live session id header, closes and removes it, else 400.
   * other methods: 405.

   crypto.randomUUID() is modelled as a fresh-identifier source: the state
   carries a counter `nextId` and the generator returns the counter value,
   which is recorded in `issued` (the identifiers ever generated).  This
   models the specified collision-freedom of random UUID generation.
   Session identifiers are therefore Nat here; live map keys are the list
   `live` (a transport object itself carries no state the claims need).
   =================================================================== -/

inductive Method
  | post
  | get
  | delete
  | other
deriving DecidableEq, Repr

structure HttpReq where
  method : Method
  sessionId : Option Nat
  /-- whether the POST body is an initialization request (the case in which
      the SDK transport generates a session id and fires onsessioninitialized) -/
  initRequest : Bool
deriving DecidableEq, Repr

structure HttpResp where
  status : Nat
  sessionId : Option Nat
deriving DecidableEq, Repr

structure RouterState where
  /-- fresh-identifier counter modelling crypto.randomUUID() -/
  nextId : Nat
  /-- every identifier the generator has ever returned -/
  issued : List Nat
  /-- keys of the `transports` map: the live sessions -/
  live : List Nat
deriving DecidableEq, Repr

def RouterState.initial : RouterState := ⟨0, [], []⟩

def handleHttp (st : RouterState) (req : HttpReq) : RouterState × HttpResp :=
  match req.method with
  | .post =>
      if req.initRequest then
        (⟨st.nextId + 1, st.issued ++ [st.nextId], st.live ++ [st.nextId]⟩,
         ⟨200, some st.nextId⟩)
      else
        -- the SDK transport rejects a non-initialization POST on a fresh
        -- transport; no session id is generated and the map is untouched
        (st, ⟨400, none⟩)
  | .get =>
      match req.sessionId with
      | some sid =>
          if sid ∈ st.live then (st, ⟨200, none⟩) else (st, ⟨400, none⟩)
      | none => (st, ⟨400, none⟩)
  | .delete =>
      match req.sessionId with
      | some sid =>
          if sid ∈ st.live then
            (⟨st.nextId, st.issued, st.live.erase sid⟩, ⟨200, none⟩)
          else (st, ⟨400, none⟩)
      | none => (st, ⟨400, none⟩)
  | .other => (st, ⟨405, none⟩)

/-- Invariant of the router state: live sessions have pairwise distinct
    identifiers, every live identifier was issued, issued identifiers are
    pairwise distinct, and all issued identifiers are below the counter. -/
structure RouterInv (st : RouterState) : Prop where
  live_nodup : st.live.Nodup
  live_issued : ∀ i ∈ st.live, i ∈ st.issued
  issued_nodup : st.issued.Nodup
  issued_lt : ∀ i ∈ st.issued, i < st.nextId

theorem routerInv_initial : RouterInv RouterState.initial :=
  ⟨by decide, by decide, by decide, by decide⟩

theorem nextId_not_issued (st : RouterState) (h : RouterInv st) :
    st.nextId ∉ st.issued := fun hm => absurd (h.issued_lt _ hm) (lt_irrefl _)

theorem nextId_not_live (st : RouterState) (h : RouterInv st) :
    st.nextId ∉ st.live := fun hm => nextId_not_issued st h (h.live_issued _ hm)

theorem handleHttp_preserves_inv (st : RouterState) (req : HttpReq)
    (h : RouterInv st) : RouterInv (handleHttp st req).1 := by
  cases req with
  | mk m sid ini =>
    cases m with
    | post =>
        cases ini with
        | false => exact h
        | true =>
            have hred : (handleHttp st ⟨.post, sid, true⟩).1 =
                ⟨st.nextId + 1, st.issued ++ [st.nextId], st.live ++ [st.nextId]⟩ := rfl
            rw [hred]
            refine ⟨?_, ?_, ?_, ?_⟩
            · simpa [List.nodup_append] using ⟨h.live_nodup, nextId_not_live st h⟩
            · intro i hi
              rcases List.mem_append.mp hi with hi | hi
              · exact List.mem_append.mpr (Or.inl (h.live_issued i hi))
              · exact List.mem_append.mpr (Or.inr hi)
            · simp only [List.nodup_append]
              exact ⟨h.issued_nodup, by simp, by
                simpa [List.disjoint_singleton] using nextId_not_issued st h⟩
            · intro i hi
              rcases List.mem_append.mp hi with hi | hi
              · exact Nat.lt_succ_of_lt (h.issued_lt i hi)
              · simp only [List.mem_singleton] at hi
                simp [hi]
    | get =>
        cases sid with
        | none => exact h
        | some s =>
            by_cases hs : s ∈ st.live <;> simp [handleHttp, hs] <;> exact h
    | delete =>
        cases sid with
        | none => exact h
        | some s =>
            by_cases hs : s ∈ st.live
            · simp only [handleHttp, hs, if_pos]
              exact ⟨h.live_nodup.erase s,
                     fun i hi => h.live_issued i (List.mem_of_mem_erase hi),
                     h.issued_nodup, h.issued_lt⟩
            · simp only [handleHttp, hs, if_neg, not_false_iff]
              exact h
    | other => exact h

/-- C1: a POST request with no session-identifier header creates a new
    session registered under the freshly generated identifier `st.nextId`,
    which is distinct from every identifier previously issued; and for every
    request the router invariant is preserved, so no two live sessions in
    the registry ever share the same identifier. -/
theorem post_creates_fresh_unique_session (st : RouterState) (h : RouterInv st) :
    (∀ req, RouterInv (handleHttp st req).1) ∧
    (handleHttp st ⟨.post, none, true⟩).2.sessionId = some st.nextId ∧
    st.nextId ∉ st.issued ∧
    st.nextId ∈ (handleHttp st ⟨.post, none, true⟩).1.live ∧
    (handleHttp st ⟨.post, none, true⟩).1.live.Nodup := by
  refine ⟨fun req => handleHttp_preserves_inv st req h, rfl,
          nextId_not_issued st h, ?_, ?_⟩
  · simp [handleHttp]
  · exact (handleHttp_preserves_inv st ⟨.post, none, true⟩ h).live_nodup

theorem post_creates_fresh_unique_session_witness :
    (∀ req, RouterInv (handleHttp RouterState.initial req).1) ∧
    (handleHttp RouterState.initial ⟨.post, none, true⟩).2.sessionId =
      some RouterState.initial.nextId ∧
    RouterState.initial.nextId ∉ RouterState.initial.issued ∧
    RouterState.initial.nextId ∈
      (handleHttp RouterState.initial ⟨.post, none, true⟩).1.live ∧
    (handleHttp RouterState.initial ⟨.post, none, true⟩).1.live.Nodup :=
  post_creates_fresh_unique_session RouterState.initial routerInv_initial

/-- C2: a GET request whose session identifier is absent, or is not a key of
    the live-session registry (never issued, or issued and then closed),
    receives a 400 response and leaves the router state — the registry and
    every live session — completely unchanged. -/
theorem get_unknown_session_rejected_no_effect (st : RouterState)
    (sid? : Option Nat) (b : Bool)
    (hsid : ∀ sid, sid? = some sid → sid ∉ st.live) :
    handleHttp st ⟨.get, sid?, b⟩ = (st, ⟨400, none⟩) := by
  cases sid? with
  | none => rfl
  | some s => simp [handleHttp, hsid s rfl]

theorem get_unknown_session_rejected_no_effect_witness :
    handleHttp ⟨5, [0, 1], [0]⟩ ⟨.get, some 3, false⟩ = (⟨5, [0, 1], [0]⟩, ⟨400, none⟩) ∧
    handleHttp ⟨5, [0, 1], [0]⟩ ⟨.get, some 1, false⟩ = (⟨5, [0, 1], [0]⟩, ⟨400, none⟩) ∧
    handleHttp ⟨5, [0, 1], [0]⟩ ⟨.get, none, false⟩ = (⟨5, [0, 1], [0]⟩, ⟨400, none⟩) :=
  ⟨get_unknown_session_rejected_no_effect ⟨5, [0, 1], [0]⟩ (some 3) false
      (by intro sid hs; cases hs; decide),
   get_unknown_session_rejected_no_effect ⟨5, [0, 1], [0]⟩ (some 1) false
      (by intro sid hs; cases hs; decide),
   get_unknown_session_rejected_no_effect ⟨5, [0, 1], [0]⟩ none false
      (by intro sid hs; cases hs)⟩

/-- C3: a DELETE request carrying a live session identifier succeeds (200)
    and removes exactly that session from the registry (all other live
    sessions survive); afterwards, a GET or a second DELETE carrying the
    same identifier is rejected with 400 and has no effect — closing is not
    idempotent. -/
theorem delete_removes_session_then_rejects (st : RouterState) (sid : Nat)
    (hinv : RouterInv st) (hl : sid ∈ st.live) (b b₁ b₂ : Bool) :
    (handleHttp st ⟨.delete, some sid, b⟩).2.status = 200 ∧
    sid ∉ (handleHttp st ⟨.delete, some sid, b⟩).1.live ∧
    (∀ j ∈ st.live, j ≠ sid → j ∈ (handleHttp st ⟨.delete, some sid, b⟩).1.live) ∧
    handleHttp (handleHttp st ⟨.delete, some sid, b⟩).1 ⟨.get, some sid, b₁⟩ =
      ((handleHttp st ⟨.delete, some sid, b⟩).1, ⟨400, none⟩) ∧
    handleHttp (handleHttp st ⟨.delete, some sid, b⟩).1 ⟨.delete, some sid, b₂⟩ =
      ((handleHttp st ⟨.delete, some sid, b⟩).1, ⟨400, none⟩) := by
  have hstep : handleHttp st ⟨.delete, some sid, b⟩ =
      (⟨st.nextId, st.issued, st.live.erase sid⟩, ⟨200, none⟩) := by
    simp [handleHttp, hl]
  have hgone : sid ∉ st.live.erase sid := by
    intro hmem
    exact absurd rfl ((hinv.live_nodup.mem_erase_iff.mp hmem).1)
  refine ⟨by rw [hstep], by rw [hstep]; exact hgone, ?_, ?_, ?_⟩
  · intro j hj hne
    rw [hstep]
    exact (List.mem_erase_of_ne hne).mpr hj
  · rw [hstep]
    simp [handleHttp, hgone]
  · rw [hstep]
    simp [handleHttp, hgone]

theorem delete_removes_session_then_rejects_witness :
    (handleHttp ⟨2, [0, 1], [0, 1]⟩ ⟨.delete, some 0, false⟩).2.status = 200 ∧
    0 ∉ (handleHttp ⟨2, [0, 1], [0, 1]⟩ ⟨.delete, some 0, false⟩).1.live ∧
    (∀ j ∈ ([0, 1] : List Nat), j ≠ 0 →
      j ∈ (handleHttp ⟨2, [0, 1], [0, 1]⟩ ⟨.delete, some 0, false⟩).1.live) ∧
    handleHttp (handleHttp ⟨2, [0, 1], [0, 1]⟩ ⟨.delete, some 0, false⟩).1
        ⟨.get, some 0, false⟩ =
      ((handleHttp ⟨2, [0, 1], [0, 1]⟩ ⟨.delete, some 0, false⟩).1, ⟨400, none⟩) ∧
    handleHttp (handleHttp ⟨2, [0, 1], [0, 1]⟩ ⟨.delete, some 0, false⟩).1
        ⟨.delete, some 0, false⟩ =
      ((handleHttp ⟨2, [0, 1], [0, 1]⟩ ⟨.delete, some 0, false⟩).1, ⟨400, none⟩) :=
  delete_removes_session_then_rejects ⟨2, [0, 1], [0, 1]⟩ 0
    ⟨by decide, by decide, by decide, by decide⟩ (by decide) false false false

/- ===================================================================
   v2 monolithic tool dispatcher
   (src/src/index.ts lines 607-1128: server.setRequestHandler(CallToolRequestSchema, ...))

   The handler destructures { name, arguments: args = {} }, switches on
   `name` over the 31 registered tool names, and inside a single
   try/catch: each case extracts fields from `args` with plain `as` casts
   (no validation against the declared inputSchema), awaits exactly one
   method of the Tuteliq client, and renders the response to markdown.
   The default case returns { content: [Unknown tool: name], isError: true }.
   The catch turns any thrown error into
   { content: [Error: message], isError: true }.

   Embedding choices:
   * JSON argument values are JVal; a JS `undefined` is Option.none.
     JSON numbers are modelled as integers (no extraction step below
     inspects a number except for 0-falsiness).
   * The filesystem (readFileSync) and the Tuteliq client are oracles:
     `fs` maps a path to file contents or a thrown error message;
     `exec c` models `await client.<method>(...)` for the extracted call
     `c`, followed by the rendering of its response, yielding the rendered
     markdown or the thrown error message (the source's
     `error instanceof Error ? error.message : 'Unknown error'`).
     The analyze_voice rendering is verified separately below.
   * Thrown TypeError messages (property access on undefined, .map on a
     non-array, a non-string path) are abbreviated model strings.
   =================================================================== -/

inductive JVal
  | null
  | bool (b : Bool)
  | num (n : Int)
  | str (s : String)
  | arr (elems : List JVal)
  | obj (fields : List (String × JVal))

/-- the `arguments` object of a CallTool request -/
abbrev Args := List (String × JVal)

/-- JS property access `args.k` (absent field is undefined, i.e. none) -/
def getField (args : Args) (k : String) : Option JVal :=
  args.lookup k

/-- JS property access on an arbitrary value (undefined on non-objects) -/
def propGet (v : JVal) (k : String) : Option JVal :=
  match v with
  | .obj fields => fields.lookup k
  | _ => none

/-- JS truthiness -/
def jsTruthy : JVal → Bool
  | .null => false
  | .bool b => b
  | .num n => n != 0
  | .str s => s != ""
  | .arr _ => true
  | .obj _ => true

/-- JS `x || d` on a possibly-undefined value -/
def jsOr (v : Option JVal) (d : JVal) : JVal :=
  match v with
  | some x => if jsTruthy x then x else d
  | none => d

/-- JS ternary `x ? f(x) : undefined` on a possibly-undefined value -/
def jsCond (v : Option JVal) : Option JVal :=
  match v with
  | some x => if jsTruthy x then some x else none
  | none => none

/-- filenameFromPath: filePath.split('/').pop() || filePath -/
def filenameFromPath (p : String) : String :=
  match (p.splitOn "/").getLast? with
  | some l => if l = "" then p else l
  | none => p

/-- `(args.messages as Array<...>).map(m => ({k₁: m.k₁, k₂: m.k₂}))`:
    throws unless the value is an array; each element contributes its two
    projected properties (property access on null throws). -/
def mapMessages (v : Option JVal) (k₁ k₂ : String) :
    Except String (List (Option JVal × Option JVal)) :=
  match v with
  | none => .error "TypeError: Cannot read properties of undefined (reading map)"
  | some (.arr xs) =>
      xs.mapM (fun m =>
        match m with
        | .null => .error "TypeError: Cannot read properties of null"
        | m => .ok (propGet m k₁, propGet m k₂))
  | some _ => .error "TypeError: args.messages.map is not a function"

/-- One constructor per Tuteliq client method invoked by the v2 dispatcher;
    each field is exactly the value the corresponding case extracts from
    `args` and passes to the client. -/
inductive ClientCall
  | detectBullying (content context : Option JVal)
  | detectGrooming (messages : List (Option JVal × Option JVal)) (childAge : Option JVal)
  | detectUnsafe (content context : Option JVal)
  | analyze (content incl : Option JVal)
  | analyzeEmotions (content : Option JVal)
  | getActionPlan (situation childAge audience severity : Option JVal)
  | generateReport (messages : List (Option JVal × Option JVal))
      (childAge incident : Option JVal)
  | analyzeVoice (file filename : String) (analysisType : JVal)
      (language childAge : Option JVal)
  | analyzeImage (file filename : String) (analysisType : JVal)
  | listWebhooks
  | createWebhook (name url events : Option JVal)
  | updateWebhook (id name url events isActive : Option JVal)
  | deleteWebhook (id : Option JVal)
  | testWebhook (id : Option JVal)
  | regenerateWebhookSecret (id : Option JVal)
  | getPricing
  | getPricingDetails
  | getUsageHistory (days : Option JVal)
  | getUsageByTool (date : Option JVal)
  | getUsageMonthly
  | deleteAccountData
  | exportAccountData
  | recordConsent (consentType version : Option JVal)
  | getConsentStatus (ty : Option JVal)
  | withdrawConsent (ty : Option JVal)
  | rectifyData (collection documentId fields : Option JVal)
  | getAuditLogs (action limit : Option JVal)
  | logBreach (title description severity affectedUserIds dataCategories reportedBy :
      Option JVal)
  | listBreaches (status limit : Option JVal)
  | getBreach (id : Option JVal)
  | updateBreachStatus (id status notificationStatus notes : Option JVal)

/-- the 31 tool names carried by the v2 tools array / switch cases -/
def v2ToolNames : List String :=
  ["detect_bullying", "detect_grooming", "detect_unsafe", "analyze",
   "analyze_emotions", "get_action_plan", "generate_report", "analyze_voice",
   "analyze_image", "list_webhooks", "create_webhook", "update_webhook",
   "delete_webhook", "test_webhook", "regenerate_webhook_secret",
   "get_pricing", "get_pricing_details", "get_usage_history",
   "get_usage_by_tool", "get_usage_monthly", "delete_account_data",
   "export_account_data", "record_consent", "get_consent_status",
   "withdraw_consent", "rectify_data", "get_audit_logs", "log_breach",
   "list_breaches", "get_breach", "update_breach_status"]

/-- The extraction phase of each switch case: which client call the case
    issues with which argument values (ok (some c)), the default case
    (ok none), or a thrown extraction error (error msg). -/
def v2Extract (fs : String → Except String String) (name : String)
    (args : Args) : Except String (Option ClientCall) :=
  match name with
  | "detect_bullying" =>
      .ok (some (.detectBullying (getField args "content") (getField args "context")))
  | "detect_grooming" =>
      (mapMessages (getField args "messages") "role" "content").map
        (fun msgs => some (.detectGrooming msgs (getField args "childAge")))
  | "detect_unsafe" =>
      .ok (some (.detectUnsafe (getField args "content") (getField args "context")))
  | "analyze" =>
      .ok (some (.analyze (getField args "content") (getField args "include")))
  | "analyze_emotions" =>
      .ok (some (.analyzeEmotions (getField args "content")))
  | "get_action_plan" =>
      .ok (some (.getActionPlan (getField args "situation") (getField args "childAge")
        (getField args "audience") (getField args "severity")))
  | "generate_report" =>
      (mapMessages (getField args "messages") "sender" "content").map
        (fun msgs => some (.generateReport msgs (getField args "childAge")
          (jsCond (getField args "incidentType"))))
  | "analyze_voice" =>
      match getField args "file_path" with
      | some (.str p) =>
          (fs p).map (fun buf =>
            some (.analyzeVoice buf (filenameFromPath p)
              (jsOr (getField args "analysis_type") (.str "all"))
              (getField args "language") (getField args "child_age")))
      | _ => .error "TypeError: the path argument must be of type string"
  | "analyze_image" =>
      match getField args "file_path" with
      | some (.str p) =>
          (fs p).map (fun buf =>
            some (.analyzeImage buf (filenameFromPath p)
              (jsOr (getField args "analysis_type") (.str "all"))))
      | _ => .error "TypeError: the path argument must be of type string"
  | "list_webhooks" => .ok (some .listWebhooks)
  | "create_webhook" =>
      .ok (some (.createWebhook (getField args "name") (getField args "url")
        (getField args "events")))
  | "update_webhook" =>
      .ok (some (.updateWebhook (getField args "id") (getField args "name")
        (getField args "url") (getField args "events") (getField args "is_active")))
  | "delete_webhook" => .ok (some (.deleteWebhook (getField args "id")))
  | "test_webhook" => .ok (some (.testWebhook (getField args "id")))
  | "regenerate_webhook_secret" =>
      .ok (some (.regenerateWebhookSecret (getField args "id")))
  | "get_pricing" => .ok (some .getPricing)
  | "get_pricing_details" => .ok (some .getPricingDetails)
  | "get_usage_history" => .ok (some (.getUsageHistory (getField args "days")))
  | "get_usage_by_tool" => .ok (some (.getUsageByTool (getField args "date")))
  | "get_usage_monthly" => .ok (some .getUsageMonthly)
  | "delete_account_data" => .ok (some .deleteAccountData)
  | "export_account_data" => .ok (some .exportAccountData)
  | "record_consent" =>
      .ok (some (.recordConsent (getField args "consent_type") (getField args "version")))
  | "get_consent_status" => .ok (some (.getConsentStatus (getField args "type")))
  | "withdraw_consent" => .ok (some (.withdrawConsent (getField args "type")))
  | "rectify_data" =>
      .ok (some (.rectifyData (getField args "collection")
        (getField args "document_id") (getField args "fields")))
  | "get_audit_logs" =>
      .ok (some (.getAuditLogs (getField args "action") (getField args "limit")))
  | "log_breach" =>
      .ok (some (.logBreach (getField args "title") (getField args "description")
        (getField args "severity") (getField args "affected_user_ids")
        (getField args "data_categories") (getField args "reported_by")))
  | "list_breaches" =>
      .ok (some (.listBreaches (getField args "status") (getField args "limit")))
  | "get_breach" => .ok (some (.getBreach (getField args "id")))
  | "update_breach_status" =>
      .ok (some (.updateBreachStatus (getField args "id") (getField args "status")
        (getField args "notification_status") (getField args "notes")))
  | _ => .ok none

/-- the { content: [{type: text, text}], isError? } value a CallTool case
    returns; the source omits isError on the success path (falsy) and sets
    isError: true on the default and catch paths -/
structure ToolResult where
  text : String
  isError : Bool
deriving DecidableEq, Repr

/-- The whole CallTool handler: extraction, the single client call, the
    rendering (folded into `exec`), the default case, and the surrounding
    try/catch that converts any thrown error into an error-flagged result.
    Totality of this function is the embedding of the fact that the handler
    never lets an exception escape. -/
def v2CallTool (fs : String → Except String String)
    (exec : ClientCall → Except String String) (name : String)
    (args : Args) : ToolResult :=
  match v2Extract fs name args with
  | .error msg => ⟨"Error: " ++ msg, true⟩
  | .ok none => ⟨"Unknown tool: " ++ name, true⟩
  | .ok (some c) =>
      match exec c with
      | .error msg => ⟨"Error: " ++ msg, true⟩
      | .ok rendered => ⟨rendered, false⟩

theorem v2Extract_not_registered (fs : String → Except String String)
    (name : String) (args : Args) (h : name ∉ v2ToolNames) :
    v2Extract fs name args = .ok none := by
  unfold v2Extract
  split <;> first
    | rfl
    | exact absurd (by decide) h

/-- C4 (evidence for the code bug): the v2 dispatcher performs no
    input-schema validation.  Invoking detect_bullying with an empty
    arguments object — missing the field `content` that the tool's
    inputSchema declares required — still reaches the external client,
    passing content through as undefined; with a client that succeeds, the
    invocation returns a non-error result, not an InvalidArguments error
    naming the missing field. -/
theorem missing_required_field_still_calls_client :
    v2Extract (fun _ => .error "ENOENT") "detect_bullying" [] =
      .ok (some (.detectBullying none none)) ∧
    v2CallTool (fun _ => .error "ENOENT") (fun _ => .ok "rendered markdown")
      "detect_bullying" [] = ⟨"rendered markdown", false⟩ :=
  ⟨rfl, rfl⟩

/-- C5: a tool invocation whose name is not one of the 31 registered names
    reaches the default case: it returns the structured error result
    `Unknown tool: name` with isError true, no client call is extracted,
    and the dispatcher returns normally (it is a total function for every
    oracle behaviour), so the session stays usable. -/
theorem unknown_tool_error_no_client_call (fs : String → Except String String)
    (exec : ClientCall → Except String String) (name : String) (args : Args)
    (h : name ∉ v2ToolNames) :
    v2Extract fs name args = .ok none ∧
    v2CallTool fs exec name args = ⟨"Unknown tool: " ++ name, true⟩ := by
  have hext := v2Extract_not_registered fs name args h
  refine ⟨hext, ?_⟩
  unfold v2CallTool
  rw [hext]

theorem unknown_tool_error_no_client_call_witness :
    v2Extract (fun _ => .error "ENOENT") "made_up_tool" [] = .ok none ∧
    v2CallTool (fun _ => .error "ENOENT") (fun _ => .ok "") "made_up_tool" [] =
      ⟨"Unknown tool: " ++ "made_up_tool", true⟩ :=
  unknown_tool_error_no_client_call (fun _ => .error "ENOENT")
    (fun _ => .ok "") "made_up_tool" [] (by decide)

/-- C6: whenever the client call made by a tool invocation throws, the
    dispatcher catches it at the dispatch boundary and returns the
    error-flagged result `Error: message` carrying the thrown message
    through the normal response path — for every tool, every argument
    object and every filesystem behaviour. -/
theorem handler_throw_caught_as_error_result (fs : String → Except String String)
    (exec : ClientCall → Except String String) (name : String) (args : Args)
    (c : ClientCall) (msg : String)
    (hc : v2Extract fs name args = .ok (some c)) (he : exec c = .error msg) :
    v2CallTool fs exec name args = ⟨"Error: " ++ msg, true⟩ := by
  unfold v2CallTool
  rw [hc]
  simp [he]

theorem handler_throw_caught_as_error_result_witness :
    v2CallTool (fun _ => .error "ENOENT") (fun _ => .error "upstream failure")
      "detect_bullying" [("content", JVal.str "hi")] =
      ⟨"Error: " ++ "upstream failure", true⟩ :=
  handler_throw_caught_as_error_result (fun _ => .error "ENOENT")
    (fun _ => .error "upstream failure") "detect_bullying"
    [("content", JVal.str "hi")]
    (.detectBullying (some (.str "hi")) none) "upstream failure" rfl rfl

/- ===================================================================
   express /mcp route fault barrier (server.ts, src/unnamed/part_000)

     app.all('/mcp', (req, res) => {
       mcpHandler(req, res).catch((err) => {
         console.error('MCP handler error:', err);
         if (!res.headersSent) {
           res.status(500).json({ error: 'Internal server error' });
         }
       });
     });

   A handler invocation either resolves, or rejects having already sent
   response headers or not; the route's catch inspects res.headersSent.
   =================================================================== -/

inductive HandlerRun
  | ok
  | fault (headersSent : Bool)
deriving DecidableEq, Repr

structure RouteOutcome where
  /-- whether the handler itself wrote (part of) a response -/
  headersSent : Bool
  /-- the status written by the catch block of the route, if any -/
  caughtStatus : Option Nat
deriving DecidableEq, Repr

def mcpRoute : HandlerRun → RouteOutcome
  | .ok => ⟨true, none⟩
  | .fault hs => ⟨hs, if hs then none else some 500⟩

/-- a request counts as answered when the handler wrote a response or the
    catch block wrote one -/
def answered (o : RouteOutcome) : Bool :=
  o.headersSent || o.caughtStatus.isSome

/-- C7 counterexample: a handler fault thrown after response headers were
    already sent is caught, but the route does not respond with a 500. -/
theorem route_fault_after_headers_no_500 :
    (mcpRoute (.fault true)).caughtStatus = none ∧
    (mcpRoute (.fault true)).caughtStatus ≠ some 500 := by decide

/-- C7 (amended): every handler fault on the /mcp route is caught by the
    binding; it responds with a 500-class error exactly when the handler had
    not yet sent any part of a response, and in every case — success, fault
    before headers, fault after headers — the request is answered. -/
theorem route_fault_caught_and_answered (hs : Bool) :
    (mcpRoute (.fault hs)).caughtStatus = (if hs then none else some 500) ∧
    answered (mcpRoute (.fault hs)) = true ∧
    answered (mcpRoute .ok) = true := by
  cases hs <;> decide

/- ===================================================================
   startup credential check
   (src/src/index.ts lines 14-18, v2; lines 1154-1158, v3 createServer)

     const apiKey = process.env.TUTELIQ_API_KEY;
     if (!apiKey) {
       console.error('Error: TUTELIQ_API_KEY environment variable is required');
       process.exit(1);
     }

   This runs before any tool registration, server construction or
   transport setup.  An unset variable reads as undefined (none); the
   JS !apiKey guard is also taken for the falsy empty string.
   =================================================================== -/

inductive StartupResult
  | exit (code : Nat)
  | started (apiKey : String)
deriving DecidableEq, Repr

def startupCheck (envApiKey : Option String) : StartupResult :=
  match envApiKey with
  | none => .exit 1
  | some k => if k = "" then .exit 1 else .started k

/-- C8: when TUTELIQ_API_KEY is absent the process exits with code 1 — a
    non-zero exit code — before any server is created or request served;
    with a (non-empty) credential present, startup proceeds with that key. -/
theorem startup_requires_credential (k : String) (hk : k ≠ "") :
    startupCheck none = .exit 1 ∧ (1 : Nat) ≠ 0 ∧
    startupCheck (some k) = .started k := by
  refine ⟨rfl, by decide, ?_⟩
  simp [startupCheck, hk]

theorem startup_requires_credential_witness :
    startupCheck none = .exit 1 ∧ (1 : Nat) ≠ 0 ∧
    startupCheck (some "tlq_test_key") = .started "tlq_test_key" :=
  startup_requires_credential "tlq_test_key" (by decide)

/- ===================================================================
   analyze_voice markdown renderer
   (src/src/tools/media.ts lines 55-106; the v2 case at src/src/index.ts
   lines 803-853 renders the identical template)

   Faithful decimal model of the displayed numbers: the segment start/end
   times and the duration are kept in tenths of a second, on which
   toFixed(1) is exact; risk scores are kept in integer percent, on which
   (score * 100).toFixed(0) is exact.
   =================================================================== -/

structure VoiceSegment where
  start : Nat
  /-- the source field is named end, a reserved word here -/
  stop : Nat
  text : String
deriving DecidableEq, Repr

structure Transcription where
  language : String
  duration : Nat
  text : String
  segments : List VoiceSegment
deriving DecidableEq, Repr

structure VoiceBullying where
  is_bullying : Bool
  risk_score : Nat
deriving DecidableEq, Repr

/-- the result.analysis.unsafe record; renamed to avoid a reserved word -/
structure VoiceUns where
  flag : Bool
  risk_score : Nat
deriving DecidableEq, Repr

structure VoiceGrooming where
  grooming_risk : String
  risk_score : Nat
deriving DecidableEq, Repr

structure VoiceEmotions where
  dominant_emotions : List String
  trend : String
deriving DecidableEq, Repr

structure VoiceAnalysis where
  bullying : Option VoiceBullying
  /-- the source field is named unsafe, a reserved word here -/
  uns : Option VoiceUns
  grooming : Option VoiceGrooming
  emotions : Option VoiceEmotions
deriving DecidableEq, Repr

structure VoiceResult where
  overall_severity : String
  overall_risk_score : Nat
  transcription : Transcription
  analysis : VoiceAnalysis
deriving DecidableEq, Repr

def severityEmoji : List (String × String) :=
  [("low", "🟡"), ("medium", "🟠"), ("high", "🔴"), ("critical", "⛔")]

def trendEmoji : List (String × String) :=
  [("improving", "📈"), ("stable", "➡️"), ("worsening", "📉")]

/-- `record[key] || default` (every table value is truthy) -/
def recordGet (m : List (String × String)) (k d : String) : String :=
  (m.lookup k).getD d

/-- n.toFixed(1) for a time held in tenths of a second -/
def toFixed1 (tenths : Nat) : String :=
  toString (tenths / 10) ++ "." ++ toString (tenths % 10)

/-- `\`${s.start.toFixed(1)}s–${s.end.toFixed(1)}s\` ${s.text}` -/
def renderSegmentLine (s : VoiceSegment) : String :=
  "`" ++ toFixed1 s.start ++ "s–" ++ toFixed1 s.stop ++ "s` " ++ s.text

/-- result.transcription.segments.slice(0, 20).map(...).join(newline) -/
def segmentLines (segs : List VoiceSegment) : String :=
  String.intercalate "\n" ((segs.take 20).map renderSegmentLine)

/-- the trailing note appended when more than 20 segments exist -/
def moreSegmentsNote (n : Nat) : String :=
  if n > 20 then "\n_...and " ++ toString (n - 20) ++ " more segments_" else ""

def voiceAnalysisLines (a : VoiceAnalysis) : List String :=
  (match a.bullying with
   | some b => ["**Bullying:** " ++ (if b.is_bullying then "⚠️ Detected" else "✅ Clear")
       ++ " (" ++ toString b.risk_score ++ "%)"]
   | none => []) ++
  (match a.uns with
   | some u => ["**Unsafe:** " ++ (if u.flag then "⚠️ Detected" else "✅ Clear")
       ++ " (" ++ toString u.risk_score ++ "%)"]
   | none => []) ++
  (match a.grooming with
   | some g => ["**Grooming:** " ++
       (if g.grooming_risk != "none" then "⚠️ " ++ g.grooming_risk else "✅ Clear")
       ++ " (" ++ toString g.risk_score ++ "%)"]
   | none => []) ++
  (match a.emotions with
   | some e => ["**Emotions:** " ++ String.intercalate ", " e.dominant_emotions
       ++ " (" ++ recordGet trendEmoji e.trend "" ++ " " ++ e.trend ++ ")"]
   | none => [])

/-- everything of the template before the segment lines -/
def voiceHeader (r : VoiceResult) : String :=
  "## 🎙️ Voice Analysis\n\n**Overall Severity:** " ++
  recordGet severityEmoji r.overall_severity "✅" ++ " " ++ r.overall_severity ++
  "\n**Overall Risk Score:** " ++ toString r.overall_risk_score ++
  "%\n**Language:** " ++ r.transcription.language ++
  "\n**Duration:** " ++ toFixed1 r.transcription.duration ++
  "s\n\n### Transcript\n" ++ r.transcription.text ++
  "\n\n### Timestamped Segments\n"

/-- the full rendered text of a successful analyze_voice invocation -/
def voiceResponseText (r : VoiceResult) : String :=
  voiceHeader r ++ segmentLines r.transcription.segments ++
  moreSegmentsNote r.transcription.segments.length ++
  "\n\n### Analysis Results\n" ++
  String.intercalate "\n" (voiceAnalysisLines r.analysis)

/-- C10: the rendered analyze_voice text contains, between a prefix and a
    suffix, exactly the 20-prefix of the per-segment renderings — the first
    min(n, 20) transcription segments in their original order — directly
    followed by a note that reads `...and (n - 20) more segments` when the
    transcription has n > 20 segments and is empty otherwise. -/
theorem voice_text_caps_segments (r : VoiceResult) :
    ∃ L : List String, ∃ pre post : String,
      voiceResponseText r =
        pre ++ String.intercalate "\n" L ++
          moreSegmentsNote r.transcription.segments.length ++ post ∧
      L = (r.transcription.segments.map renderSegmentLine).take 20 ∧
      L.length = min r.transcription.segments.length 20 ∧
      moreSegmentsNote r.transcription.segments.length =
        (if 20 < r.transcription.segments.length then
          "\n_...and " ++ toString (r.transcription.segments.length - 20) ++
            " more segments_"
         else "") := by
  refine ⟨(r.transcription.segments.take 20).map renderSegmentLine,
          voiceHeader r,
          "\n\n### Analysis Results\n" ++
            String.intercalate "\n" (voiceAnalysisLines r.analysis),
          ?_, ?_, ?_, rfl⟩
  · simp only [voiceResponseText, segmentLines]
    rw [String.append_assoc]
  · rw [List.map_take]
  · simp only [List.length_map, List.length_take]
    omega
